import Mathlib

/-!
# WUTokenHelper: the exported function `GetWUToken`

A shallow embedding of `src/WUTokenHelper/main.cpp`.  The program is one exported
function that talks to the Windows identity broker.  The answers of the platform
(the activation factory and interface query of lines 15 and 16, then the identity
store, the account provider resolver and the token broker) are the fields of
`Platform`; what the function does to the outside world (collaborator
calls, console lines, task-allocator blocks, the store through `retToken`) is
collected in `State`; a C++/WinRT exception is the `error` side of `Except`.
-/

namespace WUTokenHelper

/-! ## Text and machine integers -/

/-- A `winrt::hstring` (and a `wchar_t` buffer): a sequence of UTF-16 code units. -/
abbrev hstring := List Nat

/-- The UTF-16 code units of one Unicode scalar value, as the compiler emits them
for a character of a wide literal. -/
def utf16 (c : Char) : List Nat :=
  if c.toNat < 65536 then [c.toNat]
  else [55296 + (c.toNat - 65536) / 1024, 56320 + (c.toNat - 65536) % 1024]

/-- The wide string literal written with the prefix L in the source. -/
def L (s : String) : hstring :=
  s.toList.foldr (fun c acc => utf16 c ++ acc) []

/-- The member `hstring::size()`: the number of code units. -/
def hstring.size (s : hstring) : Nat := s.length

/-- The member `hstring::data()`: the backing buffer, which is the code units
followed by a terminating null code unit. -/
def hstring.data (s : hstring) : List Nat := s ++ [0]

/-- The width of `wchar_t` in bytes on the target platform. -/
def sizeof_wchar_t : Nat := 2

/-- The value of a 32-bit pattern read as a signed (two's complement) `int`. -/
def toInt32 (bits : Nat) : Int :=
  if bits % 4294967296 < 2147483648 then ((bits % 4294967296 : Nat) : Int)
  else ((bits % 4294967296 : Nat) : Int) - 4294967296

/-- Modelled from the spec: the Windows SDK constant SEVERITY_ERROR used by the
two status macros of the source; the SDK header is not part of the repository. -/
def SEVERITY_ERROR : Nat := 1

/-- Modelled from the spec: the Windows SDK constant FACILITY_ITF used by the
two status macros of the source; the SDK header is not part of the repository. -/
def FACILITY_ITF : Nat := 4

/-- Modelled from the spec: the Windows SDK macro MAKE_HRESULT, absent from the
repository.  It packs severity, facility and code into one 32-bit pattern, so that
the two constants below have the values the spec gives for them (0x80040200 and
0x80040400). -/
def MAKE_HRESULT (sev fac code : Nat) : Nat :=
  ((sev <<< 31) ||| (fac <<< 16) ||| code) % 4294967296

/-- The macro `WU_NO_ACCOUNT` of the source (a 32-bit pattern). -/
def WU_NO_ACCOUNT : Nat := MAKE_HRESULT SEVERITY_ERROR FACILITY_ITF 0x200

/-- The macro `WU_TOKEN_FETCH_ERROR_BASE` of the source (a 32-bit pattern). -/
def WU_TOKEN_FETCH_ERROR_BASE : Nat := MAKE_HRESULT SEVERITY_ERROR FACILITY_ITF 0x400

/-- Modelled from the spec: the Windows SDK success code S_OK (the spec's return
code `0`). -/
def S_OK : Nat := 0

/-! ## Platform types -/

/-- A C++/WinRT exception (`winrt::hresult_error`), carrying its HRESULT pattern. -/
structure hresult_error where
  code : Nat
deriving DecidableEq, Repr

/-- Modelled from the spec: the HRESULT E_BOUNDS of the Windows SDK, carried by
`winrt::hresult_out_of_bounds`. -/
def E_BOUNDS : Nat := 0x8000000B

/-- The exception a WinRT collection raises for an index outside it. -/
def hresult_out_of_bounds : hresult_error := ⟨E_BOUNDS⟩

/-- Modelled from the spec: `IVectorView<T>::GetAt` of the Windows Runtime, which
returns the element at `index` and raises `hresult_out_of_bounds` when there is
none. -/
def GetAt {α : Type} (v : List α) (index : Nat) : Except hresult_error α :=
  match v.get? index with
  | some x => .ok x
  | none => .error hresult_out_of_bounds

/-- An account of the platform identity store: an identifier and a user name. -/
structure WebAccount where
  Id : hstring
  UserName : hstring
deriving DecidableEq, Repr

/-- An account provider, as resolved by authority and audience. -/
structure WebAccountProvider where
  Id : hstring
  Authority : hstring
deriving DecidableEq, Repr

/-- The value built by the constructor `WebTokenRequest(provider, scope, clientId)`. -/
structure WebTokenRequest where
  Provider : WebAccountProvider
  Scope : hstring
  ClientId : hstring
deriving DecidableEq, Repr

/-- One entry of the token collection of a response. -/
structure WebTokenResponse where
  Token : hstring
deriving DecidableEq, Repr

/-- The enumeration `WebTokenRequestStatus`, an `enum class` over `int32_t`: a value
is its 32-bit pattern.  The enumerators below carry the values of the Windows
Runtime metadata, which is not part of the repository; the program itself names
only `Success`. -/
abbrev WebTokenRequestStatus := Fin 4294967296

/-- Enumerator `Success`. -/
def WebTokenRequestStatus.Success : WebTokenRequestStatus := 0
/-- Enumerator `UserCancel`. -/
def WebTokenRequestStatus.UserCancel : WebTokenRequestStatus := 1
/-- Enumerator `AccountSwitch`. -/
def WebTokenRequestStatus.AccountSwitch : WebTokenRequestStatus := 2
/-- Enumerator `UserInteractionRequired`. -/
def WebTokenRequestStatus.UserInteractionRequired : WebTokenRequestStatus := 3
/-- Enumerator `AccountProviderNotAvailable`. -/
def WebTokenRequestStatus.AccountProviderNotAvailable : WebTokenRequestStatus := 4
/-- Enumerator `ProviderError`. -/
def WebTokenRequestStatus.ProviderError : WebTokenRequestStatus := 5

/-- The result of a token request: a status and the token entries. -/
structure WebTokenRequestResult where
  ResponseStatus : WebTokenRequestStatus
  ResponseData : List WebTokenResponse
deriving DecidableEq, Repr

/-- The platform the operation runs on, each field the answer of one call of the
source: a value, or a raised fault.  `get_activation_factory` is line 15 (the
activation factory of `TokenBrokerInternal`), `as_ITokenBrokerInternalStatics` is
the interface query `.as<ITokenBrokerInternalStatics>()` of line 16; both yield a
handle that is only used to make the next call.  The other three fields are the
collaborators, with the answer each gives when the blocking `.get()` on its
asynchronous call completes. -/
structure Platform where
  get_activation_factory : Except hresult_error Unit
  as_ITokenBrokerInternalStatics : Except hresult_error Unit
  FindAllAccountsAsync : Except hresult_error (List WebAccount)
  FindAccountProviderAsync : hstring → hstring → Except hresult_error WebAccountProvider
  GetTokenSilentlyAsync :
    WebTokenRequest → WebAccount → Except hresult_error WebTokenRequestResult

/-! ## Codec -/

/-- The enumeration `BinaryStringEncoding`; only the member the program passes. -/
inductive BinaryStringEncoding where
  | Utf16LE
deriving DecidableEq, Repr

/-- Modelled from the spec: `CryptographicBuffer::ConvertStringToBinary` of the
Windows Runtime at the encoding Utf16LE, the spec's "UTF-16LE byte representation":
every code unit gives its low byte, then its high byte. -/
def ConvertStringToBinary (value : hstring) (encoding : BinaryStringEncoding) : List Nat :=
  match encoding with
  | .Utf16LE =>
    value.foldr (fun u acc => u % 256 :: (u / 256) % 256 :: acc) []

/-- The character code of the base64 digit with value `n`
(A to Z, a to z, 0 to 9, plus, slash). -/
def base64Digit (n : Nat) : Nat :=
  if n % 64 < 26 then 65 + n % 64
  else if n % 64 < 52 then 97 + (n % 64 - 26)
  else if n % 64 < 62 then 48 + (n % 64 - 52)
  else if n % 64 = 62 then 43
  else 47

/-- Modelled from the spec: `CryptographicBuffer::EncodeToBase64String` of the
Windows Runtime, the spec's "base64 encode": the standard alphabet, three bytes to
four digits, padded with the equals sign (code 61). -/
def EncodeToBase64String : List Nat → hstring
  | [] => []
  | [a] => [base64Digit (a / 4), base64Digit ((a % 4) * 16), 61, 61]
  | [a, b] =>
    [base64Digit (a / 4), base64Digit ((a % 4) * 16 + b / 16),
     base64Digit ((b % 16) * 4), 61]
  | a :: b :: c :: rest =>
    base64Digit (a / 4) :: base64Digit ((a % 4) * 16 + b / 16) ::
    base64Digit ((b % 16) * 4 + c / 64) :: base64Digit (c % 64) ::
    EncodeToBase64String rest

/-! ## Effects -/

/-- A call to one of the three collaborators, with its arguments. -/
inductive Call where
  | FindAllAccountsAsync
  | FindAccountProviderAsync (webAccountProviderId authority : hstring)
  | GetTokenSilentlyAsync (request : WebTokenRequest) (webAccount : WebAccount)
deriving DecidableEq, Repr

/-- The variadic argument of one `wprintf` call of the source. -/
inductive PrintfArg where
  | size (n : Nat)
  | c_str (s : hstring)
deriving DecidableEq, Repr

/-- One `wprintf` call: the format literal and its argument. -/
structure ConsoleWrite where
  format : hstring
  arg : PrintfArg
deriving DecidableEq, Repr

/-- A block of the task allocator, in `wchar_t` cells; `none` is a cell that was
never written. -/
abbrev Block := List (Option Nat)

/-- What one invocation has done so far: the collaborator calls in order, the
console lines in order, the blocks obtained from `CoTaskMemAlloc` in order, and
the pointer stored through the output parameter (`none`: nothing was stored, the
caller's pointer is as it was; `some p`: it now points at block number `p`). -/
structure State where
  calls : List Call
  console : List ConsoleWrite
  allocated : List Block
  retToken : Option Nat
deriving DecidableEq, Repr

/-- The state at entry. -/
def State.init : State := ⟨[], [], [], none⟩

/-- Record a collaborator call. -/
def State.call (s : State) (c : Call) : State :=
  { s with calls := s.calls ++ [c] }

/-- Record a `wprintf` call. -/
def State.wprintf (s : State) (format : hstring) (arg : PrintfArg) : State :=
  { s with console := s.console ++ [⟨format, arg⟩] }

/-- Modelled from the spec: `CoTaskMemAlloc` of the shared task allocator, which
hands out a fresh block of `cb` bytes with unspecified contents.  The allocator is
taken to have memory left, as the source does (it does not test for null). -/
def CoTaskMemAlloc (s : State) (cb : Nat) : Nat × State :=
  (s.allocated.length,
   { s with allocated := s.allocated ++ [List.replicate (cb / sizeof_wchar_t) none] })

/-- The assignment through the output parameter of the source. -/
def State.store_retToken (s : State) (p : Nat) : State :=
  { s with retToken := some p }

/-- The C library `memcpy` of `count` bytes from the buffer `src` to the start of
block `dest`. -/
def memcpy (s : State) (dest : Nat) (src : List Nat) (count : Nat) : State :=
  match s.allocated.get? dest with
  | some b =>
    let n := count / sizeof_wchar_t
    { s with allocated := List.set s.allocated dest ((src.take n).map some ++ b.drop n) }
  | none => s

/-- How an invocation ends: the effects, and either the returned `int` or the
exception that left the function. -/
structure Outcome where
  state : State
  result : Except hresult_error Int

/-! ## The exported function -/

/-- The function `GetWUToken` of `src/WUTokenHelper/main.cpp`, statement by
statement. -/
def GetWUToken (os : Platform) : Outcome :=
  let s := State.init
  -- line 15: tokenBrokerStatics = get_activation_factory<TokenBrokerInternal, IUnknown>()
  match os.get_activation_factory with
  | .error e => ⟨s, .error e⟩
  | .ok _ =>
  -- line 16: statics = tokenBrokerStatics.as<ITokenBrokerInternalStatics>()
  match os.as_ITokenBrokerInternalStatics with
  | .error e => ⟨s, .error e⟩
  | .ok _ =>
  -- line 17: accounts = statics.FindAllAccountsAsync().get()
  let s := s.call .FindAllAccountsAsync
  match os.FindAllAccountsAsync with
  | .error e => ⟨s, .error e⟩
  | .ok accounts =>
  -- line 18
  let s := s.wprintf (L "Account count = %i\n") (.size accounts.length)
  -- lines 19-20: if (accounts.Size() == 0) return WU_NO_ACCOUNT
  if accounts.length = 0 then ⟨s, .ok (toInt32 WU_NO_ACCOUNT)⟩ else
  -- line 21: accountInfo = accounts.GetAt(0)
  match GetAt accounts 0 with
  | .error e => ⟨s, .error e⟩
  | .ok accountInfo =>
  -- lines 22-23
  let s := s.wprintf (L "ID = %s\n") (.c_str accountInfo.Id)
  let s := s.wprintf (L "Name = %s\n") (.c_str accountInfo.UserName)
  -- line 25: accountProvider = FindAccountProviderAsync(...).get()
  let s := s.call (.FindAccountProviderAsync (L "https://login.microsoft.com") (L "consumers"))
  match os.FindAccountProviderAsync (L "https://login.microsoft.com") (L "consumers") with
  | .error e => ⟨s, .error e⟩
  | .ok accountProvider =>
  -- line 26: WebTokenRequest request(accountProvider, scope, clientId)
  let request : WebTokenRequest :=
    ⟨accountProvider, L "service::dcat.update.microsoft.com::MBI_SSL",
     L "\x7b28520974-CE92-4F36-A219-3F255AF7E61E\x7d"⟩
  -- line 27: result = GetTokenSilentlyAsync(request, accountInfo).get()
  let s := s.call (.GetTokenSilentlyAsync request accountInfo)
  match os.GetTokenSilentlyAsync request accountInfo with
  | .error e => ⟨s, .error e⟩
  | .ok result =>
  -- lines 28-30: the status is cast to int32_t and or-ed into the error base
  if result.ResponseStatus ≠ WebTokenRequestStatus.Success then
    ⟨s, .ok (toInt32 (WU_TOKEN_FETCH_ERROR_BASE ||| result.ResponseStatus.val))⟩
  else
  -- line 31: token = result.ResponseData().GetAt(0).Token()
  match GetAt result.ResponseData 0 with
  | .error e => ⟨s, .error e⟩
  | .ok response =>
  let token := response.Token
  -- line 32
  let s := s.wprintf (L "Token = %s\n") (.c_str token)
  -- lines 33-34
  let tokenBinary := ConvertStringToBinary token .Utf16LE
  let tokenBase64 := EncodeToBase64String tokenBinary
  -- line 35
  let s := s.wprintf (L "Encoded token = %s\n") (.c_str tokenBase64)
  -- line 37: *retToken = (wchar_t*)::CoTaskMemAlloc((tokenBase64.size() + 1) * sizeof(wchar_t))
  let alloc := CoTaskMemAlloc s ((tokenBase64.size + 1) * sizeof_wchar_t)
  let s := alloc.2.store_retToken alloc.1
  -- line 38: memcpy(*retToken, tokenBase64.data(), (tokenBase64.size() + 1) * sizeof(wchar_t))
  let s := memcpy s alloc.1 tokenBase64.data ((tokenBase64.size + 1) * sizeof_wchar_t)
  -- line 39: return S_OK
  ⟨s, .ok (toInt32 S_OK)⟩

/-! ## Reading an outcome -/

/-- The request that line 26 of the source builds around a resolved provider. -/
def requestFor (accountProvider : WebAccountProvider) : WebTokenRequest :=
  ⟨accountProvider, L "service::dcat.update.microsoft.com::MBI_SSL",
   L "\x7b28520974-CE92-4F36-A219-3F255AF7E61E\x7d"⟩

/-- The three console lines written once an account has been selected. -/
def consoleAccount (n : Nat) (a : WebAccount) : List ConsoleWrite :=
  [⟨L "Account count = %i\n", .size n⟩, ⟨L "ID = %s\n", .c_str a.Id⟩,
   ⟨L "Name = %s\n", .c_str a.UserName⟩]

/-- Whether a call is an enumeration of the identity store. -/
def Call.isEnumeration : Call → Bool
  | .FindAllAccountsAsync => true
  | _ => false

/-- Whether a call is a provider resolution. -/
def Call.isProviderResolution : Call → Bool
  | .FindAccountProviderAsync _ _ => true
  | _ => false

/-- Whether a call is a silent token request. -/
def Call.isTokenRequest : Call → Bool
  | .GetTokenSilentlyAsync _ _ => true
  | _ => false

/-! ## Concrete platforms -/

/-- A first account. -/
def account0 : WebAccount := ⟨L "id-0", L "user-0"⟩

/-- A second account. -/
def account1 : WebAccount := ⟨L "id-1", L "user-1"⟩

/-- A fault of a collaborator (the pattern of E_FAIL). -/
def fault0 : hresult_error := ⟨0x80004005⟩

/-- A platform with the given accounts, a resolver that finds every provider, and
a broker that gives the same answer to every request. -/
def answering (accounts : List WebAccount) (result : WebTokenRequestResult) : Platform :=
  ⟨.ok (), .ok (), .ok accounts, fun id authority => .ok ⟨id, authority⟩, fun _ _ => .ok result⟩

/-- A platform on which the activation factory of line 15 cannot be obtained. -/
def activationFails : Platform :=
  ⟨.error fault0, .ok (), .ok [account0], fun id authority => .ok ⟨id, authority⟩,
   fun _ _ => .ok ⟨WebTokenRequestStatus.Success, [⟨L "abc123"⟩]⟩⟩

/-- A platform on which the interface query of line 16 raises `fault0`. -/
def interfaceFails : Platform :=
  ⟨.ok (), .error fault0, .ok [account0], fun id authority => .ok ⟨id, authority⟩,
   fun _ _ => .ok ⟨WebTokenRequestStatus.Success, [⟨L "abc123"⟩]⟩⟩

/-- A platform whose account enumeration raises `fault0`. -/
def enumerationFails : Platform :=
  ⟨.ok (), .ok (), .error fault0, fun id authority => .ok ⟨id, authority⟩,
   fun _ _ => .ok ⟨WebTokenRequestStatus.Success, [⟨L "abc123"⟩]⟩⟩

/-- A platform with one account whose provider resolution raises `fault0`. -/
def resolutionFails : Platform :=
  ⟨.ok (), .ok (), .ok [account0], fun _ _ => .error fault0,
   fun _ _ => .ok ⟨WebTokenRequestStatus.Success, [⟨L "abc123"⟩]⟩⟩

/-- A platform with one account whose silent token request raises `fault0`. -/
def requestFails : Platform :=
  ⟨.ok (), .ok (), .ok [account0], fun id authority => .ok ⟨id, authority⟩, fun _ _ => .error fault0⟩

/-! ## The paths of the function -/

theorem GetAt_cons {α : Type} (a : α) (rest : List α) : GetAt (a :: rest) 0 = .ok a := rfl

theorem GetAt_nil {α : Type} (i : Nat) : GetAt ([] : List α) i = .error hresult_out_of_bounds := rfl

theorem path_activation_fault (os : Platform) (e : hresult_error)
    (hf : os.get_activation_factory = .error e) :
    GetWUToken os = ⟨⟨[], [], [], none⟩, .error e⟩ := by
  simp [GetWUToken, hf, State.init]

theorem path_interface_fault (os : Platform) (e : hresult_error)
    (hf : os.get_activation_factory = .ok ())
    (hi : os.as_ITokenBrokerInternalStatics = .error e) :
    GetWUToken os = ⟨⟨[], [], [], none⟩, .error e⟩ := by
  simp [GetWUToken, hf, hi, State.init]

theorem path_enumeration_fault (os : Platform)
    (hf : os.get_activation_factory = .ok ())
    (hi : os.as_ITokenBrokerInternalStatics = .ok ())
    (e : hresult_error)
    (h : os.FindAllAccountsAsync = .error e) :
    GetWUToken os = ⟨⟨[.FindAllAccountsAsync], [], [], none⟩, .error e⟩ := by
  simp [GetWUToken, hf, hi, h, State.init, State.call]

theorem path_no_account (os : Platform)
    (hf : os.get_activation_factory = .ok ())
    (hi : os.as_ITokenBrokerInternalStatics = .ok ())
    (h : os.FindAllAccountsAsync = .ok []) :
    GetWUToken os =
      ⟨⟨[.FindAllAccountsAsync], [⟨L "Account count = %i\n", .size 0⟩], [], none⟩,
       .ok (toInt32 WU_NO_ACCOUNT)⟩ := by
  simp [GetWUToken, hf, hi, h, State.init, State.call, State.wprintf]

theorem path_provider_fault (os : Platform)
    (hf : os.get_activation_factory = .ok ())
    (hi : os.as_ITokenBrokerInternalStatics = .ok ())
    (a : WebAccount) (rest : List WebAccount)
    (e : hresult_error)
    (h : os.FindAllAccountsAsync = .ok (a :: rest))
    (hp : os.FindAccountProviderAsync (L "https://login.microsoft.com") (L "consumers") = .error e) :
    GetWUToken os =
      ⟨⟨[.FindAllAccountsAsync,
         .FindAccountProviderAsync (L "https://login.microsoft.com") (L "consumers")],
        consoleAccount (rest.length + 1) a, [], none⟩, .error e⟩ := by
  simp [GetWUToken, hf, hi, h, hp, State.init, State.call, State.wprintf, GetAt_cons, consoleAccount]

theorem path_broker_fault (os : Platform)
    (hf : os.get_activation_factory = .ok ())
    (hi : os.as_ITokenBrokerInternalStatics = .ok ())
    (a : WebAccount) (rest : List WebAccount)
    (p : WebAccountProvider) (e : hresult_error)
    (h : os.FindAllAccountsAsync = .ok (a :: rest))
    (hp : os.FindAccountProviderAsync (L "https://login.microsoft.com") (L "consumers") = .ok p)
    (hb : os.GetTokenSilentlyAsync (requestFor p) a = .error e) :
    GetWUToken os =
      ⟨⟨[.FindAllAccountsAsync,
         .FindAccountProviderAsync (L "https://login.microsoft.com") (L "consumers"),
         .GetTokenSilentlyAsync (requestFor p) a],
        consoleAccount (rest.length + 1) a, [], none⟩, .error e⟩ := by
  unfold requestFor at hb
  simp [GetWUToken, hf, hi, h, hp, hb, State.init, State.call, State.wprintf, GetAt_cons, consoleAccount,
    requestFor]

theorem path_not_success (os : Platform)
    (hf : os.get_activation_factory = .ok ())
    (hi : os.as_ITokenBrokerInternalStatics = .ok ())
    (a : WebAccount) (rest : List WebAccount)
    (p : WebAccountProvider) (r : WebTokenRequestResult)
    (h : os.FindAllAccountsAsync = .ok (a :: rest))
    (hp : os.FindAccountProviderAsync (L "https://login.microsoft.com") (L "consumers") = .ok p)
    (hb : os.GetTokenSilentlyAsync (requestFor p) a = .ok r)
    (hs : r.ResponseStatus ≠ WebTokenRequestStatus.Success) :
    GetWUToken os =
      ⟨⟨[.FindAllAccountsAsync,
         .FindAccountProviderAsync (L "https://login.microsoft.com") (L "consumers"),
         .GetTokenSilentlyAsync (requestFor p) a],
        consoleAccount (rest.length + 1) a, [], none⟩,
       .ok (toInt32 (WU_TOKEN_FETCH_ERROR_BASE ||| r.ResponseStatus.val))⟩ := by
  unfold requestFor at hb
  simp [GetWUToken, hf, hi, h, hp, hb, hs, State.init, State.call, State.wprintf, GetAt_cons,
    consoleAccount, requestFor]

theorem path_no_token (os : Platform)
    (hf : os.get_activation_factory = .ok ())
    (hi : os.as_ITokenBrokerInternalStatics = .ok ())
    (a : WebAccount) (rest : List WebAccount)
    (p : WebAccountProvider) (r : WebTokenRequestResult)
    (h : os.FindAllAccountsAsync = .ok (a :: rest))
    (hp : os.FindAccountProviderAsync (L "https://login.microsoft.com") (L "consumers") = .ok p)
    (hb : os.GetTokenSilentlyAsync (requestFor p) a = .ok r)
    (hs : r.ResponseStatus = WebTokenRequestStatus.Success)
    (hd : r.ResponseData = []) :
    GetWUToken os =
      ⟨⟨[.FindAllAccountsAsync,
         .FindAccountProviderAsync (L "https://login.microsoft.com") (L "consumers"),
         .GetTokenSilentlyAsync (requestFor p) a],
        consoleAccount (rest.length + 1) a, [], none⟩,
       .error hresult_out_of_bounds⟩ := by
  unfold requestFor at hb
  simp [GetWUToken, hf, hi, h, hp, hb, hs, hd, State.init, State.call, State.wprintf, GetAt_cons,
    GetAt_nil, consoleAccount, requestFor]

theorem path_success (os : Platform)
    (hf : os.get_activation_factory = .ok ())
    (hi : os.as_ITokenBrokerInternalStatics = .ok ())
    (a : WebAccount) (rest : List WebAccount)
    (p : WebAccountProvider) (r : WebTokenRequestResult) (t : WebTokenResponse)
    (more : List WebTokenResponse)
    (h : os.FindAllAccountsAsync = .ok (a :: rest))
    (hp : os.FindAccountProviderAsync (L "https://login.microsoft.com") (L "consumers") = .ok p)
    (hb : os.GetTokenSilentlyAsync (requestFor p) a = .ok r)
    (hs : r.ResponseStatus = WebTokenRequestStatus.Success)
    (hd : r.ResponseData = t :: more) :
    GetWUToken os =
      ⟨⟨[.FindAllAccountsAsync,
         .FindAccountProviderAsync (L "https://login.microsoft.com") (L "consumers"),
         .GetTokenSilentlyAsync (requestFor p) a],
        consoleAccount (rest.length + 1) a ++
          [⟨L "Token = %s\n", .c_str t.Token⟩,
           ⟨L "Encoded token = %s\n",
            .c_str (EncodeToBase64String (ConvertStringToBinary t.Token .Utf16LE))⟩],
        [(EncodeToBase64String (ConvertStringToBinary t.Token .Utf16LE) ++ [0]).map some],
        some 0⟩,
       .ok 0⟩ := by
  unfold requestFor at hb
  simp [GetWUToken, hf, hi, h, hp, hb, hs, hd, State.init, State.call, State.wprintf, GetAt_cons,
    consoleAccount, requestFor, CoTaskMemAlloc, memcpy, State.store_retToken, hstring.size,
    hstring.data, sizeof_wchar_t, toInt32, S_OK]

/-- Every invocation follows one of the nine paths of the source: a fault at line
15, a fault at line 16, or one of the seven paths from line 17 on. -/
theorem GetWUToken_paths (os : Platform) :
    (∃ e, os.get_activation_factory = .error e ∧
      GetWUToken os = ⟨⟨[], [], [], none⟩, .error e⟩) ∨
    (∃ e, os.get_activation_factory = .ok () ∧
      os.as_ITokenBrokerInternalStatics = .error e ∧
      GetWUToken os = ⟨⟨[], [], [], none⟩, .error e⟩) ∨
    os.get_activation_factory = .ok () ∧ os.as_ITokenBrokerInternalStatics = .ok () ∧
    ((∃ e, os.FindAllAccountsAsync = .error e ∧
      GetWUToken os = ⟨⟨[.FindAllAccountsAsync], [], [], none⟩, .error e⟩) ∨
    (os.FindAllAccountsAsync = .ok [] ∧
      GetWUToken os =
        ⟨⟨[.FindAllAccountsAsync], [⟨L "Account count = %i\n", .size 0⟩], [], none⟩,
         .ok (toInt32 WU_NO_ACCOUNT)⟩) ∨
    (∃ a rest e, os.FindAllAccountsAsync = .ok (a :: rest) ∧
      os.FindAccountProviderAsync (L "https://login.microsoft.com") (L "consumers") = .error e ∧
      GetWUToken os =
        ⟨⟨[.FindAllAccountsAsync,
           .FindAccountProviderAsync (L "https://login.microsoft.com") (L "consumers")],
          consoleAccount (rest.length + 1) a, [], none⟩, .error e⟩) ∨
    (∃ a rest p e, os.FindAllAccountsAsync = .ok (a :: rest) ∧
      os.FindAccountProviderAsync (L "https://login.microsoft.com") (L "consumers") = .ok p ∧
      os.GetTokenSilentlyAsync (requestFor p) a = .error e ∧
      GetWUToken os =
        ⟨⟨[.FindAllAccountsAsync,
           .FindAccountProviderAsync (L "https://login.microsoft.com") (L "consumers"),
           .GetTokenSilentlyAsync (requestFor p) a],
          consoleAccount (rest.length + 1) a, [], none⟩, .error e⟩) ∨
    (∃ a rest p r, os.FindAllAccountsAsync = .ok (a :: rest) ∧
      os.FindAccountProviderAsync (L "https://login.microsoft.com") (L "consumers") = .ok p ∧
      os.GetTokenSilentlyAsync (requestFor p) a = .ok r ∧
      r.ResponseStatus ≠ WebTokenRequestStatus.Success ∧
      GetWUToken os =
        ⟨⟨[.FindAllAccountsAsync,
           .FindAccountProviderAsync (L "https://login.microsoft.com") (L "consumers"),
           .GetTokenSilentlyAsync (requestFor p) a],
          consoleAccount (rest.length + 1) a, [], none⟩,
         .ok (toInt32 (WU_TOKEN_FETCH_ERROR_BASE ||| r.ResponseStatus.val))⟩) ∨
    (∃ a rest p r, os.FindAllAccountsAsync = .ok (a :: rest) ∧
      os.FindAccountProviderAsync (L "https://login.microsoft.com") (L "consumers") = .ok p ∧
      os.GetTokenSilentlyAsync (requestFor p) a = .ok r ∧
      r.ResponseStatus = WebTokenRequestStatus.Success ∧ r.ResponseData = [] ∧
      GetWUToken os =
        ⟨⟨[.FindAllAccountsAsync,
           .FindAccountProviderAsync (L "https://login.microsoft.com") (L "consumers"),
           .GetTokenSilentlyAsync (requestFor p) a],
          consoleAccount (rest.length + 1) a, [], none⟩,
         .error hresult_out_of_bounds⟩) ∨
    (∃ a rest p r t more, os.FindAllAccountsAsync = .ok (a :: rest) ∧
      os.FindAccountProviderAsync (L "https://login.microsoft.com") (L "consumers") = .ok p ∧
      os.GetTokenSilentlyAsync (requestFor p) a = .ok r ∧
      r.ResponseStatus = WebTokenRequestStatus.Success ∧ r.ResponseData = t :: more ∧
      GetWUToken os =
        ⟨⟨[.FindAllAccountsAsync,
           .FindAccountProviderAsync (L "https://login.microsoft.com") (L "consumers"),
           .GetTokenSilentlyAsync (requestFor p) a],
          consoleAccount (rest.length + 1) a ++
            [⟨L "Token = %s\n", .c_str t.Token⟩,
             ⟨L "Encoded token = %s\n",
              .c_str (EncodeToBase64String (ConvertStringToBinary t.Token .Utf16LE))⟩],
          [(EncodeToBase64String (ConvertStringToBinary t.Token .Utf16LE) ++ [0]).map some],
          some 0⟩,
         .ok 0⟩)) := by
  rcases hf : os.get_activation_factory with e | u
  · exact Or.inl ⟨e, rfl, path_activation_fault os e hf⟩
  rcases hi : os.as_ITokenBrokerInternalStatics with e | u2
  · exact Or.inr (Or.inl ⟨e, rfl, rfl, path_interface_fault os e hf hi⟩)
  refine Or.inr (Or.inr ⟨rfl, rfl, ?_⟩)
  rcases h : os.FindAllAccountsAsync with e | accounts
  · exact Or.inl ⟨e, rfl, path_enumeration_fault os hf hi e h⟩
  · cases accounts with
    | nil => exact Or.inr (Or.inl ⟨rfl, path_no_account os hf hi h⟩)
    | cons a rest =>
      rcases hp : os.FindAccountProviderAsync (L "https://login.microsoft.com") (L "consumers")
        with e | p
      · exact Or.inr (Or.inr (Or.inl ⟨a, rest, e, rfl, rfl, path_provider_fault os hf hi a rest e h hp⟩))
      · rcases hb : os.GetTokenSilentlyAsync (requestFor p) a with e | r
        · exact Or.inr (Or.inr (Or.inr (Or.inl
            ⟨a, rest, p, e, rfl, rfl, hb, path_broker_fault os hf hi a rest p e h hp hb⟩)))
        · by_cases hs : r.ResponseStatus = WebTokenRequestStatus.Success
          · cases hd : r.ResponseData with
            | nil =>
              exact Or.inr (Or.inr (Or.inr (Or.inr (Or.inr (Or.inl
                ⟨a, rest, p, r, rfl, rfl, hb, hs, hd,
                  path_no_token os hf hi a rest p r h hp hb hs hd⟩)))))
            | cons t more =>
              exact Or.inr (Or.inr (Or.inr (Or.inr (Or.inr (Or.inr
                ⟨a, rest, p, r, t, more, rfl, rfl, hb, hs, hd,
                  path_success os hf hi a rest p r t more h hp hb hs hd⟩)))))
          · exact Or.inr (Or.inr (Or.inr (Or.inr (Or.inl
              ⟨a, rest, p, r, rfl, rfl, hb, hs, path_not_success os hf hi a rest p r h hp hb hs⟩))))

/-! ## Arithmetic of the status codes -/

theorem WU_NO_ACCOUNT_eq : WU_NO_ACCOUNT = 0x80040200 := by decide

theorem WU_TOKEN_FETCH_ERROR_BASE_eq : WU_TOKEN_FETCH_ERROR_BASE = 0x80040400 := by decide

theorem toInt32_S_OK : toInt32 S_OK = 0 := by decide

theorem toInt32_WU_NO_ACCOUNT : toInt32 WU_NO_ACCOUNT = -2147220992 := by decide

/-- A pattern with the sign bit set, below 2^32, reads as itself minus 2^32. -/
theorem toInt32_of_sign_bit (n : Nat) (hlo : 2147483648 ≤ n) (hhi : n < 4294967296) :
    toInt32 n = (n : Int) - 4294967296 := by
  unfold toInt32
  rw [Nat.mod_eq_of_lt hhi, if_neg (by omega)]

/-- The error base or-ed with a 32-bit pattern stays a 32-bit pattern. -/
theorem base_or_lt (v : WebTokenRequestStatus) :
    WU_TOKEN_FETCH_ERROR_BASE ||| v.val < 4294967296 := by
  have hb : WU_TOKEN_FETCH_ERROR_BASE < 2 ^ 32 := by decide
  have hv : v.val < 2 ^ 32 := v.isLt
  exact Nat.or_lt_two_pow hb hv

/-- The error base or-ed with anything keeps the sign bit of the base. -/
theorem base_or_ge (v : WebTokenRequestStatus) :
    2147483648 ≤ WU_TOKEN_FETCH_ERROR_BASE ||| v.val := by
  have h : (WU_TOKEN_FETCH_ERROR_BASE ||| v.val).testBit 31 = true := by
    rw [Nat.testBit_or]
    have : WU_TOKEN_FETCH_ERROR_BASE.testBit 31 = true := by decide
    simp [this]
  exact Nat.testBit_implies_ge h

/-- The error base or-ed with anything keeps bit 10 of the base, which the
no-account pattern lacks. -/
theorem base_or_ne_no_account (v : WebTokenRequestStatus) :
    WU_TOKEN_FETCH_ERROR_BASE ||| v.val ≠ WU_NO_ACCOUNT := by
  intro h
  have h1 : (WU_TOKEN_FETCH_ERROR_BASE ||| v.val).testBit 10 = true := by
    rw [Nat.testBit_or]
    have : WU_TOKEN_FETCH_ERROR_BASE.testBit 10 = true := by decide
    simp [this]
  have h2 : WU_NO_ACCOUNT.testBit 10 = false := by decide
  rw [h, h2] at h1
  exact Bool.noConfusion h1

theorem toInt32_base_or (v : WebTokenRequestStatus) :
    toInt32 (WU_TOKEN_FETCH_ERROR_BASE ||| v.val) =
      ((WU_TOKEN_FETCH_ERROR_BASE ||| v.val : Nat) : Int) - 4294967296 :=
  toInt32_of_sign_bit _ (base_or_ge v) (base_or_lt v)

theorem toInt32_base_or_neg (v : WebTokenRequestStatus) :
    toInt32 (WU_TOKEN_FETCH_ERROR_BASE ||| v.val) < 0 := by
  rw [toInt32_base_or]
  have := base_or_lt v
  omega

theorem toInt32_base_or_ne_no_account (v : WebTokenRequestStatus) :
    toInt32 (WU_TOKEN_FETCH_ERROR_BASE ||| v.val) ≠ toInt32 WU_NO_ACCOUNT := by
  rw [toInt32_base_or, toInt32_WU_NO_ACCOUNT]
  intro h
  apply base_or_ne_no_account v
  rw [WU_NO_ACCOUNT_eq]
  omega

/-- The bits of the error base are bits 10, 18 and 31. -/
theorem base_testBit (i : Nat) :
    WU_TOKEN_FETCH_ERROR_BASE.testBit i =
      (decide (i = 10) || decide (i = 18) || decide (i = 31)) := by
  by_cases hi : i < 32
  · interval_cases i <;> decide
  · have hlt : WU_TOKEN_FETCH_ERROR_BASE < 2 ^ i :=
      Nat.lt_of_lt_of_le (by decide : WU_TOKEN_FETCH_ERROR_BASE < 2 ^ 32)
        (Nat.pow_le_pow_right (by decide) (by omega))
    rw [Nat.testBit_lt_two_pow hlt]
    have h1 : i ≠ 10 := by omega
    have h2 : i ≠ 18 := by omega
    have h3 : i ≠ 31 := by omega
    simp [h1, h2, h3]

/-- Two patterns give the same code exactly when they agree on every bit other
than bits 10, 18 and 31. -/
theorem base_or_eq_iff (x y : Nat) :
    WU_TOKEN_FETCH_ERROR_BASE ||| x = WU_TOKEN_FETCH_ERROR_BASE ||| y ↔
      ∀ i, i ≠ 10 → i ≠ 18 → i ≠ 31 → x.testBit i = y.testBit i := by
  constructor
  · intro h i h1 h2 h3
    have hb := congrArg (fun n => Nat.testBit n i) h
    simp only [Nat.testBit_or, base_testBit, h1, h2, h3, decide_False, Bool.or_self,
      Bool.false_or] at hb
    exact hb
  · intro h
    apply Nat.eq_of_testBit_eq
    intro i
    rw [Nat.testBit_or, Nat.testBit_or, base_testBit]
    by_cases h1 : i = 10
    · simp [h1]
    by_cases h2 : i = 18
    · simp [h2]
    by_cases h3 : i = 31
    · simp [h3]
    simp [h1, h2, h3, h i h1 h2 h3]

/-! ## The claims -/

/-- C2: with at least one account, a resolved provider and a broker answer whose
status `v` is not Success, GetWUToken returns the error base (the pattern
0x80040400) or-ed with the 32-bit pattern of `v`, read as an `int`, whatever the
token entries of the answer are; nothing is allocated or stored. -/
theorem GetWUToken_not_success_code (os : Platform) (a : WebAccount) (rest : List WebAccount)
    (p : WebAccountProvider) (r : WebTokenRequestResult)
    (hf : os.get_activation_factory = .ok ())
    (hi : os.as_ITokenBrokerInternalStatics = .ok ())
    (h : os.FindAllAccountsAsync = .ok (a :: rest))
    (hp : os.FindAccountProviderAsync (L "https://login.microsoft.com") (L "consumers") = .ok p)
    (hb : os.GetTokenSilentlyAsync
        ⟨p, L "service::dcat.update.microsoft.com::MBI_SSL",
         L "\x7b28520974-CE92-4F36-A219-3F255AF7E61E\x7d"⟩ a = .ok r)
    (hs : r.ResponseStatus ≠ WebTokenRequestStatus.Success) :
    (GetWUToken os).result = .ok (toInt32 (0x80040400 ||| r.ResponseStatus.val)) ∧
    WU_TOKEN_FETCH_ERROR_BASE = 0x80040400 ∧
    MAKE_HRESULT SEVERITY_ERROR FACILITY_ITF 0x400 = 0x80040400 ∧
    (GetWUToken os).state.allocated = [] ∧
    (GetWUToken os).state.retToken = none := by
  rw [path_not_success os hf hi a rest p r h hp hb hs, WU_TOKEN_FETCH_ERROR_BASE_eq]
  exact ⟨rfl, rfl, by decide, rfl, rfl⟩

/-- C2, at the status UserInteractionRequired (3) with a token entry present: the
code is 0x80040403 read as an `int`. -/
theorem GetWUToken_not_success_code_witness :
    WebTokenRequestStatus.UserInteractionRequired ≠ WebTokenRequestStatus.Success ∧
    (GetWUToken (answering [account0]
        ⟨WebTokenRequestStatus.UserInteractionRequired, [⟨L "abc123"⟩]⟩)).result
      = .ok (-2147220477) := by
  have hs : WebTokenRequestStatus.UserInteractionRequired ≠ WebTokenRequestStatus.Success := by
    decide
  have w := GetWUToken_not_success_code
    (answering [account0] ⟨WebTokenRequestStatus.UserInteractionRequired, [⟨L "abc123"⟩]⟩)
    account0 [] ⟨L "https://login.microsoft.com", L "consumers"⟩
    ⟨WebTokenRequestStatus.UserInteractionRequired, [⟨L "abc123"⟩]⟩ rfl rfl rfl rfl rfl hs
  have e : toInt32 (0x80040400 ||| WebTokenRequestStatus.UserInteractionRequired.val)
      = -2147220477 := by decide
  exact ⟨hs, w.1.trans (congrArg Except.ok e)⟩

/-- C3: when the identity store returns no account, GetWUToken returns the
NoAccount code (the pattern 0x80040200 read as an `int`), and the only collaborator
call is the enumeration: the provider resolver and the token broker are called
zero times. -/
theorem GetWUToken_no_account (os : Platform)
    (hf : os.get_activation_factory = .ok ())
    (hi : os.as_ITokenBrokerInternalStatics = .ok ())
    (h : os.FindAllAccountsAsync = .ok []) :
    (GetWUToken os).result = .ok (toInt32 WU_NO_ACCOUNT) ∧
    WU_NO_ACCOUNT = 0x80040200 ∧
    MAKE_HRESULT SEVERITY_ERROR FACILITY_ITF 0x200 = 0x80040200 ∧
    (GetWUToken os).state.calls = [.FindAllAccountsAsync] ∧
    (GetWUToken os).state.calls.countP Call.isProviderResolution = 0 ∧
    (GetWUToken os).state.calls.countP Call.isTokenRequest = 0 ∧
    (GetWUToken os).state.allocated = [] ∧
    (GetWUToken os).state.retToken = none := by
  rw [path_no_account os hf hi h]
  exact ⟨rfl, by decide, by decide, rfl, rfl, rfl, rfl, rfl⟩

/-- C3, at a platform with no account whose broker would have answered Success. -/
theorem GetWUToken_no_account_witness :
    (GetWUToken (answering [] ⟨WebTokenRequestStatus.Success, [⟨L "abc123"⟩]⟩)).result
      = .ok (-2147220992) ∧
    (GetWUToken (answering [] ⟨WebTokenRequestStatus.Success, [⟨L "abc123"⟩]⟩)).state.calls
      = [.FindAllAccountsAsync] := by
  have w := GetWUToken_no_account
    (answering [] ⟨WebTokenRequestStatus.Success, [⟨L "abc123"⟩]⟩) rfl rfl rfl
  exact ⟨w.1.trans (congrArg Except.ok toInt32_WU_NO_ACCOUNT), w.2.2.2.1⟩

/-- C4: two platforms that agree on everything but the accounts after the first
make the same collaborator calls, return the same result, allocate the same blocks
and store the same pointer; every silent token request carries the account at
index 0, and when the provider resolves the request for that account is made. -/
theorem GetWUToken_first_account_only (os os2 : Platform) (a : WebAccount)
    (rest rest2 : List WebAccount)
    (hf : os.get_activation_factory = .ok ())
    (hi : os.as_ITokenBrokerInternalStatics = .ok ())
    (h : os.FindAllAccountsAsync = .ok (a :: rest))
    (hf2 : os2.get_activation_factory = .ok ())
    (hi2 : os2.as_ITokenBrokerInternalStatics = .ok ())
    (h2 : os2.FindAllAccountsAsync = .ok (a :: rest2))
    (hp : os2.FindAccountProviderAsync = os.FindAccountProviderAsync)
    (hb : os2.GetTokenSilentlyAsync = os.GetTokenSilentlyAsync) :
    (GetWUToken os2).state.calls = (GetWUToken os).state.calls ∧
    (GetWUToken os2).result = (GetWUToken os).result ∧
    (GetWUToken os2).state.allocated = (GetWUToken os).state.allocated ∧
    (GetWUToken os2).state.retToken = (GetWUToken os).state.retToken ∧
    (∀ request account, Call.GetTokenSilentlyAsync request account ∈ (GetWUToken os).state.calls →
      account = a ∧ GetAt (a :: rest) 0 = .ok account) ∧
    (∀ q, os.FindAccountProviderAsync (L "https://login.microsoft.com") (L "consumers") = .ok q →
      Call.GetTokenSilentlyAsync
        ⟨q, L "service::dcat.update.microsoft.com::MBI_SSL",
         L "\x7b28520974-CE92-4F36-A219-3F255AF7E61E\x7d"⟩ a ∈ (GetWUToken os).state.calls) := by
  rcases GetWUToken_paths os with ⟨e, g0, ge⟩ | ⟨e, g0, g1, ge⟩ |
    ⟨hf, hi, ⟨e, g, _⟩ | ⟨g, _⟩ | ⟨a1, r1, e, g, gp, ge⟩ |
    ⟨a1, r1, p, e, g, gp, gb, ge⟩ | ⟨a1, r1, p, r, g, gp, gb, gs, ge⟩ |
    ⟨a1, r1, p, r, g, gp, gb, gs, gd, ge⟩ | ⟨a1, r1, p, r, t, more, g, gp, gb, gs, gd, ge⟩⟩
  · rw [hf] at g0; cases g0
  · rw [hi] at g1; cases g1
  · rw [h] at g; cases g
  · rw [h] at g; cases g
  · rw [h] at g; cases g
    rw [ge, path_provider_fault os2 hf2 hi2 a rest2 e h2 (by rw [hp]; exact gp)]
    refine ⟨rfl, rfl, rfl, rfl, ?_, ?_⟩
    · intro request account hm
      simp at hm
    · intro q hq
      rw [gp] at hq; cases hq
  · rw [h] at g; cases g
    rw [ge, path_broker_fault os2 hf2 hi2 a rest2 p e h2 (by rw [hp]; exact gp) (by rw [hb]; exact gb)]
    refine ⟨rfl, rfl, rfl, rfl, ?_, ?_⟩
    · intro request account hm
      simp at hm
      exact ⟨hm.2, by rw [hm.2]; rfl⟩
    · intro q hq
      rw [gp] at hq; cases hq
      simp [requestFor]
  · rw [h] at g; cases g
    rw [ge, path_not_success os2 hf2 hi2 a rest2 p r h2 (by rw [hp]; exact gp) (by rw [hb]; exact gb) gs]
    refine ⟨rfl, rfl, rfl, rfl, ?_, ?_⟩
    · intro request account hm
      simp at hm
      exact ⟨hm.2, by rw [hm.2]; rfl⟩
    · intro q hq
      rw [gp] at hq; cases hq
      simp [requestFor]
  · rw [h] at g; cases g
    rw [ge, path_no_token os2 hf2 hi2 a rest2 p r h2 (by rw [hp]; exact gp) (by rw [hb]; exact gb) gs gd]
    refine ⟨rfl, rfl, rfl, rfl, ?_, ?_⟩
    · intro request account hm
      simp at hm
      exact ⟨hm.2, by rw [hm.2]; rfl⟩
    · intro q hq
      rw [gp] at hq; cases hq
      simp [requestFor]
  · rw [h] at g; cases g
    rw [ge, path_success os2 hf2 hi2 a rest2 p r t more h2 (by rw [hp]; exact gp) (by rw [hb]; exact gb)
      gs gd]
    refine ⟨rfl, rfl, rfl, rfl, ?_, ?_⟩
    · intro request account hm
      simp at hm
      exact ⟨hm.2, by rw [hm.2]; rfl⟩
    · intro q hq
      rw [gp] at hq; cases hq
      simp [requestFor]

/-- C4, at one account against two accounts: the second account changes neither
the calls nor the result, and the request carries the first account. -/
theorem GetWUToken_first_account_only_witness :
    (GetWUToken
        (answering [account0, account1] ⟨WebTokenRequestStatus.Success, [⟨L "abc123"⟩]⟩)).state.calls
      = (GetWUToken
        (answering [account0] ⟨WebTokenRequestStatus.Success, [⟨L "abc123"⟩]⟩)).state.calls ∧
    (GetWUToken
        (answering [account0, account1] ⟨WebTokenRequestStatus.Success, [⟨L "abc123"⟩]⟩)).result
      = (GetWUToken
        (answering [account0] ⟨WebTokenRequestStatus.Success, [⟨L "abc123"⟩]⟩)).result :=
  have w := GetWUToken_first_account_only
    (answering [account0] ⟨WebTokenRequestStatus.Success, [⟨L "abc123"⟩]⟩)
    (answering [account0, account1] ⟨WebTokenRequestStatus.Success, [⟨L "abc123"⟩]⟩)
    account0 [] [account1] rfl rfl rfl rfl rfl rfl rfl rfl
  ⟨w.1, w.2.1⟩

/-- C5: the output parameter is stored through exactly when GetWUToken returns 0.
When the result is anything else (NoAccount, a token fetch error, or a raised
fault) no block is allocated and nothing is stored, so the caller's pointer is as
it was; when the result is 0 exactly one block is allocated and its address is the
stored pointer. -/
theorem GetWUToken_output_iff_success (os : Platform) :
    ((GetWUToken os).state.retToken.isSome = true ↔ (GetWUToken os).result = .ok 0) ∧
    ((GetWUToken os).result ≠ .ok 0 →
      (GetWUToken os).state.allocated = [] ∧ (GetWUToken os).state.retToken = none) ∧
    ((GetWUToken os).result = .ok 0 →
      (GetWUToken os).state.allocated.length = 1 ∧
      (GetWUToken os).state.retToken = some 0) := by
  have hno : toInt32 WU_NO_ACCOUNT ≠ 0 := by decide
  rcases GetWUToken_paths os with ⟨e, g0, ge⟩ | ⟨e, g0, g1, ge⟩ |
    ⟨hf, hi, ⟨e, g, ge⟩ | ⟨g, ge⟩ | ⟨a1, r1, e, g, gp, ge⟩ |
    ⟨a1, r1, p, e, g, gp, gb, ge⟩ | ⟨a1, r1, p, r, g, gp, gb, gs, ge⟩ |
    ⟨a1, r1, p, r, g, gp, gb, gs, gd, ge⟩ | ⟨a1, r1, p, r, t, more, g, gp, gb, gs, gd, ge⟩⟩
  · rw [ge]; simp
  · rw [ge]; simp
  · rw [ge]; simp
  · rw [ge]; simp [hno]
  · rw [ge]; simp
  · rw [ge]; simp
  · have hneg := toInt32_base_or_neg r.ResponseStatus
    have hne : toInt32 (WU_TOKEN_FETCH_ERROR_BASE ||| r.ResponseStatus.val) ≠ 0 := by omega
    rw [ge]; simp [hne]
  · rw [ge]; simp
  · rw [ge]; simp

/-- C6: when GetWUToken returns a status code, lines 15 and 16 raised no fault and
the identity store answered with an account collection; the code is 0, the
NoAccount code, or the error base or-ed with the status of the broker answer.  It is the NoAccount code exactly when the
account collection is empty, 0 exactly when the collection is non-empty and the
broker status is Success, and an error-base code exactly when the collection is
non-empty and the broker status is not Success, in which case it is the error base
or-ed with that status. -/
theorem GetWUToken_return_codes (os : Platform) (code : Int)
    (hret : (GetWUToken os).result = .ok code) :
    ∃ accounts, os.get_activation_factory = .ok () ∧
      os.as_ITokenBrokerInternalStatics = .ok () ∧
      os.FindAllAccountsAsync = .ok accounts ∧
      (code = toInt32 WU_NO_ACCOUNT ↔ accounts = []) ∧
      (code = 0 ↔ ∃ a rest p r, accounts = a :: rest ∧
        os.FindAccountProviderAsync (L "https://login.microsoft.com") (L "consumers") = .ok p ∧
        os.GetTokenSilentlyAsync
          ⟨p, L "service::dcat.update.microsoft.com::MBI_SSL",
           L "\x7b28520974-CE92-4F36-A219-3F255AF7E61E\x7d"⟩ a = .ok r ∧
        r.ResponseStatus = WebTokenRequestStatus.Success) ∧
      ((∃ s : WebTokenRequestStatus, code = toInt32 (WU_TOKEN_FETCH_ERROR_BASE ||| s.val)) ↔
        ∃ a rest p r, accounts = a :: rest ∧
        os.FindAccountProviderAsync (L "https://login.microsoft.com") (L "consumers") = .ok p ∧
        os.GetTokenSilentlyAsync
          ⟨p, L "service::dcat.update.microsoft.com::MBI_SSL",
           L "\x7b28520974-CE92-4F36-A219-3F255AF7E61E\x7d"⟩ a = .ok r ∧
        r.ResponseStatus ≠ WebTokenRequestStatus.Success ∧
        code = toInt32 (WU_TOKEN_FETCH_ERROR_BASE ||| r.ResponseStatus.val)) ∧
      (code = 0 ∨ code = toInt32 WU_NO_ACCOUNT ∨
        ∃ s : WebTokenRequestStatus, code = toInt32 (WU_TOKEN_FETCH_ERROR_BASE ||| s.val)) := by
  have hno : toInt32 WU_NO_ACCOUNT ≠ 0 := by decide
  rcases GetWUToken_paths os with ⟨e, g0, ge⟩ | ⟨e, g0, g1, ge⟩ |
    ⟨hf, hi, ⟨e, g, ge⟩ | ⟨g, ge⟩ | ⟨a1, r1, e, g, gp, ge⟩ |
    ⟨a1, r1, p, e, g, gp, gb, ge⟩ | ⟨a1, r1, p, r, g, gp, gb, gs, ge⟩ |
    ⟨a1, r1, p, r, g, gp, gb, gs, gd, ge⟩ | ⟨a1, r1, p, r, t, more, g, gp, gb, gs, gd, ge⟩⟩
  · rw [ge] at hret; cases hret
  · rw [ge] at hret; cases hret
  · rw [ge] at hret; cases hret
  · rw [ge] at hret; cases hret
    refine ⟨[], hf, hi, g, ?_, ?_, ?_, Or.inr (Or.inl rfl)⟩
    · simp
    · simp [hno]
    · constructor
      · rintro ⟨s, hs⟩
        exact absurd hs.symm (toInt32_base_or_ne_no_account s)
      · rintro ⟨a, rest, p, r, hnil, _⟩
        cases hnil
  · rw [ge] at hret; cases hret
  · rw [ge] at hret; cases hret
  · rw [ge] at hret; cases hret
    have hneg := toInt32_base_or_neg r.ResponseStatus
    refine ⟨a1 :: r1, hf, hi, g, ?_, ?_, ?_, Or.inr (Or.inr ⟨r.ResponseStatus, rfl⟩)⟩
    · constructor
      · intro hc
        exact absurd hc (toInt32_base_or_ne_no_account r.ResponseStatus)
      · intro hnil
        cases hnil
    · constructor
      · intro hc
        omega
      · rintro ⟨a, rest, q, r2, hcons, hq, hr, hsucc⟩
        rw [gp] at hq; cases hq
        cases hcons
        rw [show (⟨p, L "service::dcat.update.microsoft.com::MBI_SSL",
          L "\x7b28520974-CE92-4F36-A219-3F255AF7E61E\x7d"⟩ : WebTokenRequest) = requestFor p
          from rfl, gb] at hr
        cases hr
        exact absurd hsucc gs
    · constructor
      · intro _
        exact ⟨a1, r1, p, r, rfl, gp, gb, gs, rfl⟩
      · intro _
        exact ⟨r.ResponseStatus, rfl⟩
  · rw [ge] at hret; cases hret
  · rw [ge] at hret; cases hret
    refine ⟨a1 :: r1, hf, hi, g, ?_, ?_, ?_, Or.inl rfl⟩
    · constructor
      · intro hc
        exact absurd hc.symm hno
      · intro hnil
        cases hnil
    · constructor
      · intro _
        exact ⟨a1, r1, p, r, rfl, gp, gb, gs⟩
      · intro _
        rfl
    · constructor
      · rintro ⟨s, hs⟩
        have hneg := toInt32_base_or_neg s
        omega
      · rintro ⟨a, rest, q, r2, hcons, hq, hr, hns, _⟩
        rw [gp] at hq; cases hq
        cases hcons
        rw [show (⟨p, L "service::dcat.update.microsoft.com::MBI_SSL",
          L "\x7b28520974-CE92-4F36-A219-3F255AF7E61E\x7d"⟩ : WebTokenRequest) = requestFor p
          from rfl, gb] at hr
        cases hr
        exact absurd gs hns

/-- C6, at one account and the broker status ProviderError (5): the returned code
is the error base or-ed with 5. -/
theorem GetWUToken_return_codes_witness :
    (GetWUToken (answering [account0] ⟨WebTokenRequestStatus.ProviderError, []⟩)).result
      = .ok (-2147220475) ∧
    ∃ accounts,
      (answering [account0] ⟨WebTokenRequestStatus.ProviderError, []⟩).FindAllAccountsAsync
        = .ok accounts ∧
      ((-2147220475 : Int) = toInt32 WU_NO_ACCOUNT ↔ accounts = []) := by
  have e : toInt32 (WU_TOKEN_FETCH_ERROR_BASE ||| WebTokenRequestStatus.ProviderError.val)
      = -2147220475 := by decide
  have hs : WebTokenRequestStatus.ProviderError ≠ WebTokenRequestStatus.Success := by decide
  have hret : (GetWUToken (answering [account0] ⟨WebTokenRequestStatus.ProviderError, []⟩)).result
      = .ok (-2147220475) :=
    (congrArg Outcome.result
      (path_not_success (answering [account0] ⟨WebTokenRequestStatus.ProviderError, []⟩)
        rfl rfl account0 [] ⟨L "https://login.microsoft.com", L "consumers"⟩
        ⟨WebTokenRequestStatus.ProviderError, []⟩ rfl rfl rfl hs)).trans (congrArg Except.ok e)
  obtain ⟨accounts, _, _, h1, h2, _⟩ := GetWUToken_return_codes
    (answering [account0] ⟨WebTokenRequestStatus.ProviderError, []⟩) (-2147220475) hret
  exact ⟨hret, accounts, h1, h2⟩

/-- C7 as stated fails: the broker statuses 0x400 and 0x40000 are distinct and
neither is Success, yet GetWUToken returns the same code for both, the bare error
base. -/
theorem GetWUToken_substatus_collision :
    (1024 : WebTokenRequestStatus) ≠ WebTokenRequestStatus.Success ∧
    (262144 : WebTokenRequestStatus) ≠ WebTokenRequestStatus.Success ∧
    (1024 : WebTokenRequestStatus) ≠ 262144 ∧
    (GetWUToken (answering [account0] ⟨1024, []⟩)).result = .ok (toInt32 0x80040400) ∧
    (GetWUToken (answering [account0] ⟨262144, []⟩)).result = .ok (toInt32 0x80040400) ∧
    toInt32 (WU_TOKEN_FETCH_ERROR_BASE ||| (1024 : WebTokenRequestStatus).val) =
      toInt32 (WU_TOKEN_FETCH_ERROR_BASE ||| (262144 : WebTokenRequestStatus).val) := by
  refine ⟨by decide, by decide, by decide, ?_, ?_, by decide⟩
  · rw [path_not_success (answering [account0] ⟨1024, []⟩) rfl rfl account0 []
      ⟨L "https://login.microsoft.com", L "consumers"⟩ ⟨1024, []⟩ rfl rfl rfl (by decide)]
    exact congrArg Except.ok (by decide)
  · rw [path_not_success (answering [account0] ⟨262144, []⟩) rfl rfl account0 []
      ⟨L "https://login.microsoft.com", L "consumers"⟩ ⟨262144, []⟩ rfl rfl rfl (by decide)]
    exact congrArg Except.ok (by decide)

/-- C7, amended: two invocations whose broker answers carry statuses other than
Success return the same code exactly when the two statuses agree on every bit
other than bits 10, 18 and 31, the bits of the error base 0x80040400; hence two
statuses give distinct codes exactly when they differ in some bit other than
those three. -/
theorem GetWUToken_substatus_preserved (os1 os2 : Platform) (a1 a2 : WebAccount)
    (rest1 rest2 : List WebAccount) (p1 p2 : WebAccountProvider)
    (r1 r2 : WebTokenRequestResult)
    (hf1 : os1.get_activation_factory = .ok ())
    (hi1 : os1.as_ITokenBrokerInternalStatics = .ok ())
    (h1 : os1.FindAllAccountsAsync = .ok (a1 :: rest1))
    (hp1 : os1.FindAccountProviderAsync (L "https://login.microsoft.com") (L "consumers")
      = .ok p1)
    (hb1 : os1.GetTokenSilentlyAsync
        ⟨p1, L "service::dcat.update.microsoft.com::MBI_SSL",
         L "\x7b28520974-CE92-4F36-A219-3F255AF7E61E\x7d"⟩ a1 = .ok r1)
    (hf2 : os2.get_activation_factory = .ok ())
    (hi2 : os2.as_ITokenBrokerInternalStatics = .ok ())
    (h2 : os2.FindAllAccountsAsync = .ok (a2 :: rest2))
    (hp2 : os2.FindAccountProviderAsync (L "https://login.microsoft.com") (L "consumers")
      = .ok p2)
    (hb2 : os2.GetTokenSilentlyAsync
        ⟨p2, L "service::dcat.update.microsoft.com::MBI_SSL",
         L "\x7b28520974-CE92-4F36-A219-3F255AF7E61E\x7d"⟩ a2 = .ok r2)
    (hs1 : r1.ResponseStatus ≠ WebTokenRequestStatus.Success)
    (hs2 : r2.ResponseStatus ≠ WebTokenRequestStatus.Success) :
    ((GetWUToken os1).result = (GetWUToken os2).result ↔
      ∀ i, i ≠ 10 → i ≠ 18 → i ≠ 31 →
        r1.ResponseStatus.val.testBit i = r2.ResponseStatus.val.testBit i) ∧
    ((GetWUToken os1).result ≠ (GetWUToken os2).result ↔
      ∃ i, i ≠ 10 ∧ i ≠ 18 ∧ i ≠ 31 ∧
        r1.ResponseStatus.val.testBit i ≠ r2.ResponseStatus.val.testBit i) := by
  have key : (GetWUToken os1).result = (GetWUToken os2).result ↔
      ∀ i, i ≠ 10 → i ≠ 18 → i ≠ 31 →
        r1.ResponseStatus.val.testBit i = r2.ResponseStatus.val.testBit i := by
    rw [path_not_success os1 hf1 hi1 a1 rest1 p1 r1 h1 hp1 hb1 hs1,
      path_not_success os2 hf2 hi2 a2 rest2 p2 r2 h2 hp2 hb2 hs2,
      ← base_or_eq_iff]
    constructor
    · intro heq
      have hcode : toInt32 (WU_TOKEN_FETCH_ERROR_BASE ||| r1.ResponseStatus.val) =
          toInt32 (WU_TOKEN_FETCH_ERROR_BASE ||| r2.ResponseStatus.val) := by
        simpa using heq
      rw [toInt32_base_or, toInt32_base_or] at hcode
      omega
    · intro hnat
      show Except.ok _ = Except.ok _
      rw [hnat]
  refine ⟨key, ?_⟩
  constructor
  · intro hne
    by_contra hall
    apply hne
    apply key.mpr
    intro i h10 h18 h31
    by_contra hd
    exact hall ⟨i, h10, h18, h31, hd⟩
  · rintro ⟨i, h10, h18, h31, hd⟩ heq
    exact hd (key.mp heq i h10 h18 h31)

/-- C7, amended, at the statuses UserCancel (1) and UserInteractionRequired (3),
which differ in bit 1, and at the statuses 0x400 and 0x401, which both overlap the
error base and differ in bit 0. -/
theorem GetWUToken_substatus_preserved_witness :
    (GetWUToken (answering [account0] ⟨WebTokenRequestStatus.UserCancel, []⟩)).result ≠
      (GetWUToken
        (answering [account0] ⟨WebTokenRequestStatus.UserInteractionRequired, []⟩)).result ∧
    (GetWUToken (answering [account0] ⟨1024, []⟩)).result ≠
      (GetWUToken (answering [account0] ⟨1025, []⟩)).result :=
  ⟨(GetWUToken_substatus_preserved
      (answering [account0] ⟨WebTokenRequestStatus.UserCancel, []⟩)
      (answering [account0] ⟨WebTokenRequestStatus.UserInteractionRequired, []⟩)
      account0 account0 [] [] ⟨L "https://login.microsoft.com", L "consumers"⟩
      ⟨L "https://login.microsoft.com", L "consumers"⟩
      ⟨WebTokenRequestStatus.UserCancel, []⟩
      ⟨WebTokenRequestStatus.UserInteractionRequired, []⟩
      rfl rfl rfl rfl rfl rfl rfl rfl rfl rfl (by decide) (by decide)).2.mpr
      ⟨1, by decide, by decide, by decide, by decide⟩,
   (GetWUToken_substatus_preserved
      (answering [account0] ⟨1024, []⟩) (answering [account0] ⟨1025, []⟩)
      account0 account0 [] [] ⟨L "https://login.microsoft.com", L "consumers"⟩
      ⟨L "https://login.microsoft.com", L "consumers"⟩ ⟨1024, []⟩ ⟨1025, []⟩
      rfl rfl rfl rfl rfl rfl rfl rfl rfl rfl (by decide) (by decide)).2.mpr
      ⟨0, by decide, by decide, by decide, by decide⟩⟩

/-- C8: a fault raised while obtaining the broker statics (lines 15 and 16), by the
account enumeration, by the provider resolution or by the silent token request
leaves GetWUToken as that same fault, not as a status code; no collaborator is
called after the step that raised it, no block is allocated and nothing is stored
through the output parameter. -/
theorem GetWUToken_fault_propagates (os : Platform) (f : hresult_error) :
    (os.get_activation_factory = .error f →
      (GetWUToken os).result = .error f ∧
      (GetWUToken os).state.calls = [] ∧
      (GetWUToken os).state.allocated = [] ∧ (GetWUToken os).state.retToken = none) ∧
    (os.get_activation_factory = .ok () →
      os.as_ITokenBrokerInternalStatics = .error f →
      (GetWUToken os).result = .error f ∧
      (GetWUToken os).state.calls = [] ∧
      (GetWUToken os).state.allocated = [] ∧ (GetWUToken os).state.retToken = none) ∧
    (os.get_activation_factory = .ok () →
      os.as_ITokenBrokerInternalStatics = .ok () →
      os.FindAllAccountsAsync = .error f →
      (GetWUToken os).result = .error f ∧
      (GetWUToken os).state.calls = [.FindAllAccountsAsync] ∧
      (GetWUToken os).state.allocated = [] ∧ (GetWUToken os).state.retToken = none) ∧
    (∀ a rest, os.get_activation_factory = .ok () →
      os.as_ITokenBrokerInternalStatics = .ok () →
      os.FindAllAccountsAsync = .ok (a :: rest) →
      os.FindAccountProviderAsync (L "https://login.microsoft.com") (L "consumers") = .error f →
      (GetWUToken os).result = .error f ∧
      (GetWUToken os).state.calls =
        [.FindAllAccountsAsync,
         .FindAccountProviderAsync (L "https://login.microsoft.com") (L "consumers")] ∧
      (GetWUToken os).state.allocated = [] ∧ (GetWUToken os).state.retToken = none) ∧
    (∀ a rest p, os.get_activation_factory = .ok () →
      os.as_ITokenBrokerInternalStatics = .ok () →
      os.FindAllAccountsAsync = .ok (a :: rest) →
      os.FindAccountProviderAsync (L "https://login.microsoft.com") (L "consumers") = .ok p →
      os.GetTokenSilentlyAsync
        ⟨p, L "service::dcat.update.microsoft.com::MBI_SSL",
         L "\x7b28520974-CE92-4F36-A219-3F255AF7E61E\x7d"⟩ a = .error f →
      (GetWUToken os).result = .error f ∧
      (GetWUToken os).state.calls =
        [.FindAllAccountsAsync,
         .FindAccountProviderAsync (L "https://login.microsoft.com") (L "consumers"),
         .GetTokenSilentlyAsync
           ⟨p, L "service::dcat.update.microsoft.com::MBI_SSL",
            L "\x7b28520974-CE92-4F36-A219-3F255AF7E61E\x7d"⟩ a] ∧
      (GetWUToken os).state.allocated = [] ∧ (GetWUToken os).state.retToken = none) := by
  refine ⟨?_, ?_, ?_, ?_, ?_⟩
  · intro hf
    rw [path_activation_fault os f hf]
    exact ⟨rfl, rfl, rfl, rfl⟩
  · intro hf hi
    rw [path_interface_fault os f hf hi]
    exact ⟨rfl, rfl, rfl, rfl⟩
  · intro hf hi h
    rw [path_enumeration_fault os hf hi f h]
    exact ⟨rfl, rfl, rfl, rfl⟩
  · intro a rest hf hi h hp
    rw [path_provider_fault os hf hi a rest f h hp]
    exact ⟨rfl, rfl, rfl, rfl⟩
  · intro a rest p hf hi h hp hb
    rw [path_broker_fault os hf hi a rest p f h hp hb]
    exact ⟨rfl, rfl, rfl, rfl⟩

/-- C8, at five platforms, one for each step raising `fault0`. -/
theorem GetWUToken_fault_propagates_witness :
    (GetWUToken activationFails).result = .error fault0 ∧
    (GetWUToken interfaceFails).result = .error fault0 ∧
    (GetWUToken enumerationFails).result = .error fault0 ∧
    (GetWUToken resolutionFails).result = .error fault0 ∧
    (GetWUToken requestFails).result = .error fault0 ∧
    (GetWUToken requestFails).state.allocated = [] :=
  ⟨((GetWUToken_fault_propagates activationFails fault0).1 rfl).1,
   ((GetWUToken_fault_propagates interfaceFails fault0).2.1 rfl rfl).1,
   ((GetWUToken_fault_propagates enumerationFails fault0).2.2.1 rfl rfl rfl).1,
   ((GetWUToken_fault_propagates resolutionFails fault0).2.2.2.1 account0 []
      rfl rfl rfl rfl).1,
   ((GetWUToken_fault_propagates requestFails fault0).2.2.2.2 account0 []
      ⟨L "https://login.microsoft.com", L "consumers"⟩ rfl rfl rfl rfl rfl).1,
   ((GetWUToken_fault_propagates requestFails fault0).2.2.2.2 account0 []
      ⟨L "https://login.microsoft.com", L "consumers"⟩ rfl rfl rfl rfl rfl).2.2.1⟩

/-- C9 as stated fails: when the activation factory of line 15 cannot be obtained,
the invocation ends with that fault and the identity store is not enumerated at
all, so the enumeration count is 0 and not 1. -/
theorem GetWUToken_enumeration_skipped :
    (GetWUToken activationFails).result = .error fault0 ∧
    (GetWUToken activationFails).state.calls = [] ∧
    (GetWUToken activationFails).state.calls.countP Call.isEnumeration = 0 ∧
    (GetWUToken activationFails).state.calls.countP Call.isEnumeration ≠ 1 := by
  rw [path_activation_fault activationFails fault0 rfl]
  exact ⟨rfl, rfl, rfl, by decide⟩

/-- C9, amended: in every invocation the identity store is enumerated at most
once, and exactly once precisely when lines 15 and 16 (obtaining the broker
statics) raise no fault; the provider resolver and the token broker are called at
most once each; the calls are a prefix of enumerate, resolve the provider for
("https://login.microsoft.com", "consumers"), request a token, and the request
carries the resolved provider, the fixed target resource and the fixed client id;
when the account collection is non-empty and no fault is raised, all three calls
are made. -/
theorem GetWUToken_no_retries (os : Platform) :
    ((GetWUToken os).state.calls = [] ∨
     (GetWUToken os).state.calls = [.FindAllAccountsAsync] ∨
     (GetWUToken os).state.calls =
       [.FindAllAccountsAsync,
        .FindAccountProviderAsync (L "https://login.microsoft.com") (L "consumers")] ∨
     ∃ p a, os.FindAccountProviderAsync (L "https://login.microsoft.com") (L "consumers")
         = .ok p ∧
       (GetWUToken os).state.calls =
         [.FindAllAccountsAsync,
          .FindAccountProviderAsync (L "https://login.microsoft.com") (L "consumers"),
          .GetTokenSilentlyAsync
            ⟨p, L "service::dcat.update.microsoft.com::MBI_SSL",
             L "\x7b28520974-CE92-4F36-A219-3F255AF7E61E\x7d"⟩ a]) ∧
    (GetWUToken os).state.calls.countP Call.isEnumeration ≤ 1 ∧
    ((GetWUToken os).state.calls.countP Call.isEnumeration = 1 ↔
      os.get_activation_factory = .ok () ∧ os.as_ITokenBrokerInternalStatics = .ok ()) ∧
    (GetWUToken os).state.calls.countP Call.isProviderResolution ≤ 1 ∧
    (GetWUToken os).state.calls.countP Call.isTokenRequest ≤ 1 ∧
    (∀ a rest code, os.FindAllAccountsAsync = .ok (a :: rest) →
      (GetWUToken os).result = .ok code →
      (GetWUToken os).state.calls.countP Call.isProviderResolution = 1 ∧
      (GetWUToken os).state.calls.countP Call.isTokenRequest = 1 ∧
      ∃ p, os.FindAccountProviderAsync (L "https://login.microsoft.com") (L "consumers")
          = .ok p ∧
        (GetWUToken os).state.calls =
          [.FindAllAccountsAsync,
           .FindAccountProviderAsync (L "https://login.microsoft.com") (L "consumers"),
           .GetTokenSilentlyAsync
             ⟨p, L "service::dcat.update.microsoft.com::MBI_SSL",
              L "\x7b28520974-CE92-4F36-A219-3F255AF7E61E\x7d"⟩ a]) := by
  rcases GetWUToken_paths os with ⟨e, g0, ge⟩ | ⟨e, g0, g1, ge⟩ |
    ⟨hf, hi, ⟨e, g, ge⟩ | ⟨g, ge⟩ | ⟨a1, r1, e, g, gp, ge⟩ |
    ⟨a1, r1, p, e, g, gp, gb, ge⟩ | ⟨a1, r1, p, r, g, gp, gb, gs, ge⟩ |
    ⟨a1, r1, p, r, g, gp, gb, gs, gd, ge⟩ | ⟨a1, r1, p, r, t, more, g, gp, gb, gs, gd, ge⟩⟩
  · rw [ge]
    refine ⟨Or.inl rfl, Nat.zero_le 1, ?_, Nat.zero_le 1, Nat.zero_le 1, ?_⟩
    · constructor
      · intro h; cases h
      · rintro ⟨hf, _⟩
        rw [hf] at g0; cases g0
    · intro a rest code _ hr
      cases hr
  · rw [ge]
    refine ⟨Or.inl rfl, Nat.zero_le 1, ?_, Nat.zero_le 1, Nat.zero_le 1, ?_⟩
    · constructor
      · intro h; cases h
      · rintro ⟨_, hi⟩
        rw [hi] at g1; cases g1
    · intro a rest code _ hr
      cases hr
  · rw [ge]
    refine ⟨Or.inr (Or.inl rfl), Nat.le_refl 1, ⟨fun _ => ⟨hf, hi⟩, fun _ => rfl⟩,
      Nat.zero_le 1, Nat.zero_le 1, ?_⟩
    intro a rest code _ hr
    cases hr
  · rw [ge]
    refine ⟨Or.inr (Or.inl rfl), Nat.le_refl 1, ⟨fun _ => ⟨hf, hi⟩, fun _ => rfl⟩,
      Nat.zero_le 1, Nat.zero_le 1, ?_⟩
    intro a rest code ha _
    rw [g] at ha; cases ha
  · rw [ge]
    refine ⟨Or.inr (Or.inr (Or.inl rfl)), Nat.le_refl 1, ⟨fun _ => ⟨hf, hi⟩, fun _ => rfl⟩,
      Nat.le_refl 1, Nat.zero_le 1, ?_⟩
    intro a rest code _ hr
    cases hr
  · rw [ge]
    refine ⟨Or.inr (Or.inr (Or.inr ⟨p, a1, gp, rfl⟩)), Nat.le_refl 1,
      ⟨fun _ => ⟨hf, hi⟩, fun _ => rfl⟩, Nat.le_refl 1, Nat.le_refl 1, ?_⟩
    intro a rest code _ hr
    cases hr
  · rw [ge]
    refine ⟨Or.inr (Or.inr (Or.inr ⟨p, a1, gp, rfl⟩)), Nat.le_refl 1,
      ⟨fun _ => ⟨hf, hi⟩, fun _ => rfl⟩, Nat.le_refl 1, Nat.le_refl 1, ?_⟩
    intro a rest code ha _
    rw [g] at ha; cases ha
    exact ⟨rfl, rfl, p, gp, rfl⟩
  · rw [ge]
    refine ⟨Or.inr (Or.inr (Or.inr ⟨p, a1, gp, rfl⟩)), Nat.le_refl 1,
      ⟨fun _ => ⟨hf, hi⟩, fun _ => rfl⟩, Nat.le_refl 1, Nat.le_refl 1, ?_⟩
    intro a rest code _ hr
    cases hr
  · rw [ge]
    refine ⟨Or.inr (Or.inr (Or.inr ⟨p, a1, gp, rfl⟩)), Nat.le_refl 1,
      ⟨fun _ => ⟨hf, hi⟩, fun _ => rfl⟩, Nat.le_refl 1, Nat.le_refl 1, ?_⟩
    intro a rest code ha _
    rw [g] at ha; cases ha
    exact ⟨rfl, rfl, p, gp, rfl⟩

/-- C9, amended, at two accounts and a Success answer: one call to each
collaborator. -/
theorem GetWUToken_no_retries_witness :
    (GetWUToken (answering [account0, account1]
        ⟨WebTokenRequestStatus.Success, [⟨L "abc123"⟩]⟩)).state.calls.countP
      Call.isEnumeration = 1 ∧
    (GetWUToken (answering [account0, account1]
        ⟨WebTokenRequestStatus.Success, [⟨L "abc123"⟩]⟩)).state.calls.countP
      Call.isTokenRequest = 1 :=
  have w := GetWUToken_no_retries
    (answering [account0, account1] ⟨WebTokenRequestStatus.Success, [⟨L "abc123"⟩]⟩)
  ⟨w.2.2.1.mpr ⟨rfl, rfl⟩, (w.2.2.2.2.2 account0 [account1] 0 rfl rfl).2.1⟩

/-- C10: for every 32-bit status `v` the code error base or `v`, read as an `int`,
is negative, is not 0 and is not the NoAccount code; the NoAccount code is
negative and not 0; the error base is the pattern 0x80040400 and NoAccount the
pattern 0x80040200; and a code returned by GetWUToken is non-negative exactly
when it is 0. -/
theorem GetWUToken_codes_never_collide (v : WebTokenRequestStatus) (os : Platform)
    (code : Int) :
    toInt32 (WU_TOKEN_FETCH_ERROR_BASE ||| v.val) < 0 ∧
    toInt32 (WU_TOKEN_FETCH_ERROR_BASE ||| v.val) ≠ toInt32 S_OK ∧
    toInt32 (WU_TOKEN_FETCH_ERROR_BASE ||| v.val) ≠ toInt32 WU_NO_ACCOUNT ∧
    toInt32 WU_NO_ACCOUNT < 0 ∧
    toInt32 WU_NO_ACCOUNT ≠ toInt32 S_OK ∧
    toInt32 S_OK = 0 ∧
    WU_TOKEN_FETCH_ERROR_BASE = 0x80040400 ∧
    WU_NO_ACCOUNT = 0x80040200 ∧
    ((GetWUToken os).result = .ok code → (0 ≤ code ↔ code = 0)) := by
  have hneg := toInt32_base_or_neg v
  refine ⟨hneg, ?_, toInt32_base_or_ne_no_account v, by decide, by decide, by decide,
    by decide, by decide, ?_⟩
  · rw [toInt32_S_OK]; omega
  · intro hret
    have hno : toInt32 WU_NO_ACCOUNT < 0 := by decide
    rcases GetWUToken_paths os with ⟨e, g0, ge⟩ | ⟨e, g0, g1, ge⟩ |
    ⟨hf, hi, ⟨e, g, ge⟩ | ⟨g, ge⟩ | ⟨a1, r1, e, g, gp, ge⟩ |
      ⟨a1, r1, p, e, g, gp, gb, ge⟩ | ⟨a1, r1, p, r, g, gp, gb, gs, ge⟩ |
      ⟨a1, r1, p, r, g, gp, gb, gs, gd, ge⟩ | ⟨a1, r1, p, r, t, more, g, gp, gb, gs, gd, ge⟩⟩
    · rw [ge] at hret; cases hret
    · rw [ge] at hret; cases hret
    · rw [ge] at hret; cases hret
    · rw [ge] at hret; cases hret; omega
    · rw [ge] at hret; cases hret
    · rw [ge] at hret; cases hret
    · rw [ge] at hret; cases hret
      have := toInt32_base_or_neg r.ResponseStatus
      omega
    · rw [ge] at hret; cases hret
    · rw [ge] at hret; cases hret; omega

/-- C10, at the status with every bit set and a platform without accounts. -/
theorem GetWUToken_codes_never_collide_witness :
    toInt32 (WU_TOKEN_FETCH_ERROR_BASE ||| (4294967295 : WebTokenRequestStatus).val) < 0 ∧
    ((0 : Int) ≤ -2147220992 ↔ (-2147220992 : Int) = 0) :=
  have w := GetWUToken_codes_never_collide 4294967295
    (answering [] ⟨WebTokenRequestStatus.Success, []⟩) (-2147220992)
  ⟨w.1, w.2.2.2.2.2.2.2.2
    ((congrArg Outcome.result
      (path_no_account (answering [] ⟨WebTokenRequestStatus.Success, []⟩) rfl rfl rfl)).trans
      (congrArg Except.ok toInt32_WU_NO_ACCOUNT))⟩

end WUTokenHelper
